import Mathlib

/-!
Shallow embedding of the `tl_mbox` transport layer of the stm32wb-hal
repository (files `src/tl_mbox.rs`, `src/tl_mbox/sys.rs`,
`src/tl_mbox/channels.rs`) and proofs about it.

Machine integers are modelled as `Nat` with explicit `%` where overflow or
truncation matters.  Pointer-typed fields crossing the boundary are modelled
as abstract addresses (`Nat`).  Fallible operations return `Option`; a Rust
`unwrap()` panic is modelled as the `none` outcome of the enclosing handler.
-/

namespace Stm32wbHal

/-- Semantics of the `bit_field` crate's `get_bits(lo..hi)` on a `u32`:
the Rust range `lo..hi` is EXCLUSIVE of `hi`, so the extracted value is
bits `lo` through `hi-1`: `(v << (32-hi)) >> (32-hi) >> lo`, i.e.
`(v mod 2^hi) / 2^lo`. -/
def getBits (v lo hi : Nat) : Nat :=
  (v % 2 ^ hi) / 2 ^ lo

/-- `WirelessFwInfoTable` from `src/tl_mbox.rs` (four packed `u32` words). -/
structure WirelessFwInfoTable where
  version : Nat
  memory_size : Nat
  thread_info : Nat
  ble_info : Nat
deriving DecidableEq, Repr

/-- `version_major`: `(self.version.get_bits(24..31) & 0xff) as u8`. -/
def WirelessFwInfoTable.version_major (t : WirelessFwInfoTable) : Nat :=
  Nat.land (getBits t.version 24 31) 0xff

/-- `version_minor`: `(self.version.get_bits(16..23) & 0xff) as u8`. -/
def WirelessFwInfoTable.version_minor (t : WirelessFwInfoTable) : Nat :=
  Nat.land (getBits t.version 16 23) 0xff

/-- `subversion`: `(self.version.get_bits(8..15) & 0xff) as u8`. -/
def WirelessFwInfoTable.subversion (t : WirelessFwInfoTable) : Nat :=
  Nat.land (getBits t.version 8 15) 0xff

/-- `flash_size`: `(self.memory_size.get_bits(0..7) & 0xff) as u8`. -/
def WirelessFwInfoTable.flash_size (t : WirelessFwInfoTable) : Nat :=
  Nat.land (getBits t.memory_size 0 7) 0xff

/-- `sram2a_size`: `(self.memory_size.get_bits(24..31) & 0xff) as u8`. -/
def WirelessFwInfoTable.sram2a_size (t : WirelessFwInfoTable) : Nat :=
  Nat.land (getBits t.memory_size 24 31) 0xff

/-- `sram2b_size`: `(self.memory_size.get_bits(16..23) & 0xff) as u8`. -/
def WirelessFwInfoTable.sram2b_size (t : WirelessFwInfoTable) : Nat :=
  Nat.land (getBits t.memory_size 16 23) 0xff

/-- Spec-side accessor, from the documented layout: version major is bits
24–31 INCLUSIVE of the `version` word. -/
def specVersionMajor (t : WirelessFwInfoTable) : Nat :=
  (t.version / 2 ^ 24) % 2 ^ 8

/-- Spec-side accessor: flash size is bits 0–7 inclusive of `memory_size`. -/
def specFlashSize (t : WirelessFwInfoTable) : Nat :=
  t.memory_size % 2 ^ 8

/-- The spec's round-trip example packed into the two words:
`major=1, minor=10, subversion=3, build=0` gives version `0x010A0300`;
`sram2a=10, sram2b=20, flash=64` gives memory size `0x0A140040`. -/
def fwExample : WirelessFwInfoTable :=
  { version := 0x010A0300, memory_size := 0x0A140040
    thread_info := 0, ble_info := 0 }

/-- A firmware-info table whose version word has the top bit of the major
field set. -/
def fwTopBit : WirelessFwInfoTable :=
  { version := 0x80000000, memory_size := 0x00800080
    thread_info := 0, ble_info := 0 }

/-- `IpccChannel` from the hardware doorbell driver (`src/ipcc.rs`,
declared by its users in `src/tl_mbox/channels.rs`). -/
inductive IpccChannel where
  | Channel1
  | Channel2
  | Channel3
  | Channel4
  | Channel5
  | Channel6
deriving DecidableEq, Repr

namespace channels

namespace cpu1

/-- `channels.rs`: cpu1 (core1→core2) channel constants. -/
def IPCC_BLE_CMD_CHANNEL : IpccChannel := .Channel1

def IPCC_SYSTEM_CMD_RSP_CHANNEL : IpccChannel := .Channel2

def IPCC_THREAD_OT_CMD_RSP_CHANNEL : IpccChannel := .Channel3

def IPCC_MAC_802_15_4_CMD_RSP_CHANNEL : IpccChannel := .Channel3

def IPCC_THREAD_CLI_CMD_CHANNEL : IpccChannel := .Channel5

def IPCC_MM_RELEASE_BUFFER_CHANNEL : IpccChannel := .Channel4

def IPCC_HCI_ACL_DATA_CHANNEL : IpccChannel := .Channel6

end cpu1

namespace cpu2

/-- `channels.rs`: cpu2 (core2→core1) channel constants. -/
def IPCC_BLE_EVENT_CHANNEL : IpccChannel := .Channel1

def IPCC_SYSTEM_EVENT_CHANNEL : IpccChannel := .Channel2

def IPCC_THREAD_NOTIFICATION_ACK_CHANNEL : IpccChannel := .Channel3

def IPCC_MAC_802_15_4_NOTIFICATION_ACK_CHANNEL : IpccChannel := .Channel3

def IPCC_TRACES_CHANNEL : IpccChannel := .Channel4

def IPCC_THREAD_CLI_NOTIFICATION_ACK_CHANNEL : IpccChannel := .Channel5

end cpu2

end channels

/-- One Boolean doorbell bit per channel. -/
structure ChannelFlags where
  ch1 : Bool
  ch2 : Bool
  ch3 : Bool
  ch4 : Bool
  ch5 : Bool
  ch6 : Bool
deriving DecidableEq, Repr

def ChannelFlags.get (f : ChannelFlags) : IpccChannel → Bool
  | .Channel1 => f.ch1
  | .Channel2 => f.ch2
  | .Channel3 => f.ch3
  | .Channel4 => f.ch4
  | .Channel5 => f.ch5
  | .Channel6 => f.ch6

def ChannelFlags.set (f : ChannelFlags) (c : IpccChannel) (b : Bool) : ChannelFlags :=
  match c with
  | .Channel1 => { f with ch1 := b }
  | .Channel2 => { f with ch2 := b }
  | .Channel3 => { f with ch3 := b }
  | .Channel4 => { f with ch4 := b }
  | .Channel5 => { f with ch5 := b }
  | .Channel6 => { f with ch6 := b }

/-- Modelled from the spec: `src/ipcc.rs` is not under `src/`; the doorbell
peripheral driver is specified only through its six primitives (§4.3).
`rxFlag`/`txFlag` are the per-channel occupied bits, `rxEnabled`/`txEnabled`
the per-channel interrupt-arm bits. -/
structure Ipcc where
  rxFlag : ChannelFlags
  txFlag : ChannelFlags
  rxEnabled : ChannelFlags
  txEnabled : ChannelFlags
deriving DecidableEq, Repr

/-- Modelled from the spec: a channel is rx-pending when its doorbell bit is
raised and the channel is armed. -/
def Ipcc.is_rx_pending (i : Ipcc) (c : IpccChannel) : Bool :=
  i.rxFlag.get c && i.rxEnabled.get c

/-- Modelled from the spec: a channel is tx-pending when its doorbell bit is
raised and the channel is armed. -/
def Ipcc.is_tx_pending (i : Ipcc) (c : IpccChannel) : Bool :=
  i.txFlag.get c && i.txEnabled.get c

/-- Modelled from the spec: `set_rx_enabled(channel, bool)`. -/
def Ipcc.c1_set_rx_channel (i : Ipcc) (c : IpccChannel) (b : Bool) : Ipcc :=
  { i with rxEnabled := i.rxEnabled.set c b }

/-- Modelled from the spec: `set_tx_enabled(channel, bool)`. -/
def Ipcc.c1_set_tx_channel (i : Ipcc) (c : IpccChannel) (b : Bool) : Ipcc :=
  { i with txEnabled := i.txEnabled.set c b }

/-- Modelled from the spec: `clear_rx_flag(channel)`. -/
def Ipcc.c1_clear_flag_channel (i : Ipcc) (c : IpccChannel) : Ipcc :=
  { i with rxFlag := i.rxFlag.set c false }

/-- Modelled from the spec: `set_tx_flag(channel)`. -/
def Ipcc.c1_set_flag_channel (i : Ipcc) (c : IpccChannel) : Ipcc :=
  { i with txFlag := i.txFlag.set c true }

/-- `EvtBox` (`src/tl_mbox/evt.rs`, not under `src/`): the decoded-event
handle owning one `EvtPacket`; modelled as the packet's address. -/
structure EvtBox where
  evt_ptr : Nat
deriving DecidableEq, Repr

/-- Capacity of the application-facing ring: `HeaplessEvtQueue` is
`spsc::Queue<EvtBox, heapless::consts::U32, u8, SingleCore>`
(`src/tl_mbox.rs` line 258); the spec fixes the capacity at 32. -/
def EVT_QUEUE_CAPACITY : Nat := 32

/-- The application-facing SPSC ring, modelled from the spec as a
fixed-capacity FIFO over the `heapless` crate's documented behaviour:
`enqueue` fails when the ring is full, `dequeue` pops the oldest element. -/
structure HeaplessEvtQueue where
  items : List EvtBox
deriving DecidableEq, Repr

/-- `enqueue`: appends when there is room, otherwise reports failure (the
source calls `.unwrap()` on this result, so failure is a panic). -/
def HeaplessEvtQueue.enqueue (q : HeaplessEvtQueue) (e : EvtBox) :
    Option HeaplessEvtQueue :=
  if q.items.length < EVT_QUEUE_CAPACITY then some ⟨q.items ++ [e]⟩ else none

/-- `dequeue`: pops the oldest element, `none` on an empty ring. -/
def HeaplessEvtQueue.dequeue (q : HeaplessEvtQueue) :
    Option (EvtBox × HeaplessEvtQueue) :=
  match q.items with
  | [] => none
  | e :: rest => some (e, ⟨rest⟩)

/-- Iterated `dequeue`, collecting up to `n` popped elements in pop order. -/
def dequeueN : Nat → HeaplessEvtQueue → List EvtBox
  | 0, _ => []
  | n + 1, q =>
    match q.dequeue with
    | none => []
    | some (e, q2) => e :: dequeueN n q2

/-- Modelled from the spec: `unsafe_linked_list.rs` is not under `src/`.
The intrusive system-event queue (§4.2) is a FIFO of linked nodes;
`LST_is_empty` tests for `[]` and `LST_remove_head` pops the front node.
Each node is the address of the `EvtPacket` it is embedded in. -/
abbrev SysEvtQueue := List Nat

/-- The `while !LST_is_empty { LST_remove_head; queue.enqueue(..).unwrap() }`
loop of `Sys::evt_handler` (`src/tl_mbox/sys.rs` lines 62–69): repeatedly
pop the head node, wrap it in an `EvtBox` and push it into the ring;
`none` models the `unwrap()` panic on a full ring. -/
def drainSysQueue : SysEvtQueue → HeaplessEvtQueue → Option HeaplessEvtQueue
  | [], q => some q
  | n :: rest, q =>
    match q.enqueue (EvtBox.mk n) with
    | some q2 => drainSysQueue rest q2
    | none => none

/-- `Sys::evt_handler` (`src/tl_mbox/sys.rs` lines 57–73): drain the whole
intrusive queue into the ring, then clear the system-event rx flag.
Returns the new (system queue, ipcc, ring); `none` models the panic on
ring overflow (in which case the flag is never cleared). -/
def Sys.evt_handler (sysQueue : SysEvtQueue) (ipcc : Ipcc)
    (queue : HeaplessEvtQueue) :
    Option (SysEvtQueue × Ipcc × HeaplessEvtQueue) :=
  match drainSysQueue sysQueue queue with
  | none => none
  | some q2 =>
    some ([], ipcc.c1_clear_flag_channel channels.cpu2.IPCC_SYSTEM_EVENT_CHANNEL, q2)

/-- `SafeBootInfoTable` from `src/tl_mbox.rs`. -/
structure SafeBootInfoTable where
  version : Nat
deriving DecidableEq, Repr

/-- `RssInfoTable` from `src/tl_mbox.rs`. -/
structure RssInfoTable where
  version : Nat
  memory_size : Nat
  rss_info : Nat
deriving DecidableEq, Repr

/-- `DeviceInfoTable` from `src/tl_mbox.rs`. -/
structure DeviceInfoTable where
  safe_boot_info_table : SafeBootInfoTable
  rss_info_table : RssInfoTable
  wireless_fw_info_table : WirelessFwInfoTable
deriving DecidableEq, Repr

/-- The mailbox state threaded through the interrupt entry points:
the doorbell peripheral, the shared device-info table (written by the
remote core), the intrusive system-event queue, the application-facing
ring, and the command-complete payload currently readable through
`SYS_CMD_BUF` when it is reinterpreted as a response frame. -/
structure MboxState where
  ipcc : Ipcc
  deviceInfoTable : DeviceInfoTable
  sysQueue : SysEvtQueue
  evtQueue : HeaplessEvtQueue
  sysCmdBuf : Nat
deriving DecidableEq, Repr

/-- `TlMbox::wireless_fw_info` (`src/tl_mbox.rs` lines 350–361): read the
wireless firmware-info sub-table through the reference table; zero version
means the remote core has not filled it in yet. -/
def TlMbox.wireless_fw_info (st : MboxState) : Option WirelessFwInfoTable :=
  let info := st.deviceInfoTable.wireless_fw_info_table
  if info.version ≠ 0 then some info else none

/-- `TlMbox::dequeue_event` (`src/tl_mbox.rs` lines 366–368): pop one
`EvtBox` from the internal ring. -/
def TlMbox.dequeue_event (st : MboxState) : Option (EvtBox × MboxState) :=
  match st.evtQueue.dequeue with
  | none => none
  | some (e, q) => some (e, { st with evtQueue := q })

/-- `TlMbox::interrupt_ipcc_rx_handler` (`src/tl_mbox.rs` lines 317–331):
an `if`/`else if` chain over the rx channels, in the order system event,
thread notification ack, BLE event, traces, thread CLI notification ack.
Only the system-event branch calls a real handler; the other branches only
log.  The second component records which channel's branch was taken
(empty when no inspected channel was pending); the first is the resulting
state, `none` modelling a panic escaping the delegated handler. -/
def TlMbox.interrupt_ipcc_rx_handler (st : MboxState) :
    Option MboxState × List IpccChannel :=
  if st.ipcc.is_rx_pending channels.cpu2.IPCC_SYSTEM_EVENT_CHANNEL then
    (match Sys.evt_handler st.sysQueue st.ipcc st.evtQueue with
      | none => none
      | some (sq, ip, q) =>
        some { st with sysQueue := sq, ipcc := ip, evtQueue := q },
     [channels.cpu2.IPCC_SYSTEM_EVENT_CHANNEL])
  else if st.ipcc.is_rx_pending channels.cpu2.IPCC_THREAD_NOTIFICATION_ACK_CHANNEL then
    (some st, [channels.cpu2.IPCC_THREAD_NOTIFICATION_ACK_CHANNEL])
  else if st.ipcc.is_rx_pending channels.cpu2.IPCC_BLE_EVENT_CHANNEL then
    (some st, [channels.cpu2.IPCC_BLE_EVENT_CHANNEL])
  else if st.ipcc.is_rx_pending channels.cpu2.IPCC_TRACES_CHANNEL then
    (some st, [channels.cpu2.IPCC_TRACES_CHANNEL])
  else if st.ipcc.is_rx_pending channels.cpu2.IPCC_THREAD_CLI_NOTIFICATION_ACK_CHANNEL then
    (some st, [channels.cpu2.IPCC_THREAD_CLI_NOTIFICATION_ACK_CHANNEL])
  else
    (some st, [])

/-- The rx inspection order of the `else if` chain. -/
def RX_PRIORITY_ORDER : List IpccChannel :=
  [channels.cpu2.IPCC_SYSTEM_EVENT_CHANNEL,
   channels.cpu2.IPCC_THREAD_NOTIFICATION_ACK_CHANNEL,
   channels.cpu2.IPCC_BLE_EVENT_CHANNEL,
   channels.cpu2.IPCC_TRACES_CHANNEL,
   channels.cpu2.IPCC_THREAD_CLI_NOTIFICATION_ACK_CHANNEL]

/-- `Sys::cmd_evt_handler` (`src/tl_mbox/sys.rs` lines 33–55): disable the
system command/response tx channel, then reinterpret `SYS_CMD_BUF` as a
response frame and read the command-complete event out of it (the source
only logs it).  Returns the new state and the value read. -/
def Sys.cmd_evt_handler (st : MboxState) : MboxState × Nat :=
  ({ st with
      ipcc := st.ipcc.c1_set_tx_channel
        channels.cpu1.IPCC_SYSTEM_CMD_RSP_CHANNEL false },
   st.sysCmdBuf)

/-- Modelled from the spec: `src/tl_mbox/mm.rs` is not under `src/`.  §4.5:
on the buffer-release channel "the handler's only job is to acknowledge
and, if applicable, replenish/validate pool bookkeeping"; it never touches
the application-facing ring.  Modelled as acknowledging the channel. -/
def mm.free_buf_handler (st : MboxState) : MboxState :=
  { st with
      ipcc := st.ipcc.c1_set_tx_channel
        channels.cpu1.IPCC_MM_RELEASE_BUFFER_CHANNEL false }

/-- `TlMbox::interrupt_ipcc_tx_handler` (`src/tl_mbox.rs` lines 333–347):
`if`/`else if` over the tx channels system cmd/rsp, thread OT cmd/rsp,
memory-manager buffer release, HCI ACL data; only the first and third
branch call handlers, the others only log. -/
def TlMbox.interrupt_ipcc_tx_handler (st : MboxState) : MboxState :=
  if st.ipcc.is_tx_pending channels.cpu1.IPCC_SYSTEM_CMD_RSP_CHANNEL then
    (Sys.cmd_evt_handler st).1
  else if st.ipcc.is_tx_pending channels.cpu1.IPCC_THREAD_OT_CMD_RSP_CHANNEL then
    st
  else if st.ipcc.is_tx_pending channels.cpu1.IPCC_MM_RELEASE_BUFFER_CHANNEL then
    mm.free_buf_handler st
  else if st.ipcc.is_tx_pending channels.cpu1.IPCC_HCI_ACL_DATA_CHANNEL then
    st
  else
    st

/-- The observable side-effecting steps of `TlMbox::tl_init`
(`src/tl_mbox.rs` lines 273–315) and of the `Sys::new` it calls
(`src/tl_mbox/sys.rs` lines 18–31), one constructor per source statement
that writes shared state or the doorbell peripheral. -/
inductive InitStep where
  | publishRefTable
  | zeroSysTable
  | zeroDeviceInfoTable
  | zeroBleTable
  | zeroThreadTable
  | zeroMemManagerTable
  | zeroTracesTable
  | zeroMacTable
  | zeroEvtPool
  | zeroSysSpareEvtBuf
  | zeroBleSpareEvtBuf
  | ipccInit
  | initSysEvtQueueHead
  | writeSysTable
  | armSystemEventChannel
  | createEvtQueue
deriving DecidableEq, Repr

/-- The steps of `tl_init` in source order: the reference table is written
(wiring every sub-table's fixed address and publishing it at the
linker-placed `TL_REF_TABLE` location) FIRST, then the sub-tables and
shared buffers are zeroed, then `Sys::new` initialises the system event
queue head, writes the system sub-table and arms the system-event rx
channel, and finally the application ring is created. -/
def tl_init_trace : List InitStep :=
  [.publishRefTable,
   .zeroSysTable, .zeroDeviceInfoTable, .zeroBleTable, .zeroThreadTable,
   .zeroMemManagerTable, .zeroTracesTable, .zeroMacTable,
   .zeroEvtPool, .zeroSysSpareEvtBuf, .zeroBleSpareEvtBuf,
   .ipccInit,
   .initSysEvtQueueHead, .writeSysTable, .armSystemEventChannel,
   .createEvtQueue]

/-- Steps of `tl_init` that zero a sub-table or shared buffer. -/
def InitStep.isZeroStep : InitStep → Bool
  | .zeroSysTable | .zeroDeviceInfoTable | .zeroBleTable | .zeroThreadTable
  | .zeroMemManagerTable | .zeroTracesTable | .zeroMacTable
  | .zeroEvtPool | .zeroSysSpareEvtBuf | .zeroBleSpareEvtBuf => true
  | _ => false

/-- `TL_PACKET_HEADER_SIZE = size_of::<PacketHeader>()`: two pointers, 4
bytes each on the 32-bit Cortex-M target this HAL compiles for. -/
def TL_PACKET_HEADER_SIZE : Nat := 8

/-- `TL_EVT_HEADER_SIZE` from `src/tl_mbox.rs`. -/
def TL_EVT_HEADER_SIZE : Nat := 3

/-- `CFG_TLBLE_EVT_QUEUE_LENGTH` from `src/tl_mbox.rs`. -/
def CFG_TLBLE_EVT_QUEUE_LENGTH : Nat := 5

/-- `CFG_TLBLE_MOST_EVENT_PAYLOAD_SIZE` from `src/tl_mbox.rs`. -/
def CFG_TLBLE_MOST_EVENT_PAYLOAD_SIZE : Nat := 255

/-- `TL_BLE_EVENT_FRAME_SIZE = TL_EVT_HEADER_SIZE +
CFG_TLBLE_MOST_EVENT_PAYLOAD_SIZE`. -/
def TL_BLE_EVENT_FRAME_SIZE : Nat :=
  TL_EVT_HEADER_SIZE + CFG_TLBLE_MOST_EVENT_PAYLOAD_SIZE

/-- `divc(x, y) = (x + y - 1) / y` from `src/tl_mbox.rs`. -/
def divc (x y : Nat) : Nat := (x + y - 1) / y

/-- `POOL_SIZE` from `src/tl_mbox.rs` lines 244–245. -/
def POOL_SIZE : Nat :=
  CFG_TLBLE_EVT_QUEUE_LENGTH * 4
    * divc (TL_PACKET_HEADER_SIZE + TL_BLE_EVENT_FRAME_SIZE) 4

/-- Spec-side rounding: round `x` up to the next multiple of 4. -/
def roundUpTo4 (x : Nat) : Nat := 4 * ((x + 3) / 4)

/-- All six channel bits set to `b`. -/
def flagsAll (b : Bool) : ChannelFlags := ⟨b, b, b, b, b, b⟩

/-- A quiescent doorbell: nothing pending, every channel armed. -/
def ipccA : Ipcc :=
  { rxFlag := flagsAll false, txFlag := flagsAll false
    rxEnabled := flagsAll true, txEnabled := flagsAll true }

/-- A zeroed device-info table. -/
def devZero : DeviceInfoTable :=
  { safe_boot_info_table := ⟨0⟩
    rss_info_table := ⟨0, 0, 0⟩
    wireless_fw_info_table := ⟨0, 0, 0, 0⟩ }

/-- A state in which every rx channel is simultaneously pending. -/
def stAllRxPending : MboxState :=
  { ipcc := { rxFlag := flagsAll true, txFlag := flagsAll false
              rxEnabled := flagsAll true, txEnabled := flagsAll false }
    deviceInfoTable := devZero
    sysQueue := []
    evtQueue := ⟨[]⟩
    sysCmdBuf := 0 }

/-- A ring already holding 32 undelivered decoded-event handles. -/
def q32 : HeaplessEvtQueue := ⟨(List.range EVT_QUEUE_CAPACITY).map EvtBox.mk⟩

/-- A state whose device-info table has been filled in by the remote core
(nonzero version) and whose ring is empty. -/
def stReady : MboxState :=
  { ipcc := ipccA
    deviceInfoTable :=
      { safe_boot_info_table := ⟨0⟩
        rss_info_table := ⟨0, 0, 0⟩
        wireless_fw_info_table := ⟨42, 0x0A140040, 0, 0⟩ }
    sysQueue := []
    evtQueue := ⟨[]⟩
    sysCmdBuf := 0 }

/-- Draining the intrusive queue into a ring with enough room appends every
node, as an `EvtBox`, in link order. -/
theorem drainSysQueue_eq (s : SysEvtQueue) (q : HeaplessEvtQueue)
    (hcap : q.items.length + s.length ≤ EVT_QUEUE_CAPACITY) :
    drainSysQueue s q = some ⟨q.items ++ s.map EvtBox.mk⟩ := by
  induction s generalizing q with
  | nil => simp [drainSysQueue]
  | cons n rest ih =>
    have hlt : q.items.length < EVT_QUEUE_CAPACITY := by
      simp only [List.length_cons] at hcap
      omega
    have h2 : (q.items ++ [EvtBox.mk n]).length + rest.length
        ≤ EVT_QUEUE_CAPACITY := by
      simp only [List.length_append, List.length_cons, List.length_nil] at hcap ⊢
      omega
    calc drainSysQueue (n :: rest) q
        = drainSysQueue rest ⟨q.items ++ [EvtBox.mk n]⟩ := by
          simp [drainSysQueue, HeaplessEvtQueue.enqueue, hlt]
      _ = some ⟨(q.items ++ [EvtBox.mk n]) ++ rest.map EvtBox.mk⟩ :=
          ih ⟨q.items ++ [EvtBox.mk n]⟩ h2
      _ = some ⟨q.items ++ (n :: rest).map EvtBox.mk⟩ := by
          simp

/-- Popping at least `length` times from a ring returns all of its elements
in FIFO order. -/
theorem dequeueN_all (l : List EvtBox) (n : Nat) (h : l.length ≤ n) :
    dequeueN n ⟨l⟩ = l := by
  induction l generalizing n with
  | nil =>
    cases n <;> simp [dequeueN, HeaplessEvtQueue.dequeue]
  | cons e rest ih =>
    cases n with
    | zero => simp at h
    | succ m =>
      have : rest.length ≤ m := by simp only [List.length_cons] at h; omega
      simp [dequeueN, HeaplessEvtQueue.dequeue, ih m this]

/-- Claim C1 (code defect exhibit): the spec's concrete round-trip example
decodes correctly, but the accessors do NOT extract the documented inclusive
bit ranges — `get_bits(24..31)` is exclusive of bit 31, so on a version word
with the top bit of the major field set (`0x80000000`) the code's
`version_major` returns 0 while bits 24–31 of the word are 128; likewise
`flash_size` on `memory_size = 0x00800080` returns 0 while bits 0–7 are
128. -/
theorem claim_C1_divergence :
    (WirelessFwInfoTable.version_major fwExample = 1 ∧
     WirelessFwInfoTable.version_minor fwExample = 10 ∧
     WirelessFwInfoTable.subversion fwExample = 3 ∧
     WirelessFwInfoTable.flash_size fwExample = 64 ∧
     WirelessFwInfoTable.sram2a_size fwExample = 10 ∧
     WirelessFwInfoTable.sram2b_size fwExample = 20) ∧
    (WirelessFwInfoTable.version_major fwTopBit = 0 ∧
     specVersionMajor fwTopBit = 128 ∧
     WirelessFwInfoTable.flash_size fwTopBit = 0 ∧
     specFlashSize fwTopBit = 128) := by
  decide

/-- Claim C2: if the application ring already holds 32 undelivered handles
and the system-event drain must enqueue one more, the handler hits the
`unwrap()` panic (modelled as `none`) — an explicit fatal signal, never a
silent drop — and dequeuing the 32 already-held events in FIFO order still
succeeds beforehand. -/
theorem claim_C2 (sysQ : SysEvtQueue) (ipcc : Ipcc) (q : HeaplessEvtQueue)
    (hfull : q.items.length = EVT_QUEUE_CAPACITY) (hne : sysQ ≠ []) :
    Sys.evt_handler sysQ ipcc q = none ∧
    dequeueN EVT_QUEUE_CAPACITY q = q.items := by
  constructor
  · cases sysQ with
    | nil => exact absurd rfl hne
    | cons n rest =>
      simp [Sys.evt_handler, drainSysQueue, HeaplessEvtQueue.enqueue, hfull]
  · exact dequeueN_all q.items EVT_QUEUE_CAPACITY (le_of_eq hfull)

/-- Witness for C2 at a concrete input: a ring of 32 handles and one more
pending node. -/
theorem claim_C2_witness :
    q32.items.length = EVT_QUEUE_CAPACITY ∧ ([99] : SysEvtQueue) ≠ [] ∧
    (Sys.evt_handler [99] ipccA q32 = none ∧
     dequeueN EVT_QUEUE_CAPACITY q32 = q32.items) :=
  ⟨by decide, by decide, claim_C2 [99] ipccA q32 (by decide) (by decide)⟩

/-- Claim C3: one invocation of the rx system-event handler on a queue of
k > 0 linked nodes (that fit in the ring) empties the queue, enqueues
exactly k decoded-event handles into the ring preserving link order, and
clears the system-event rx flag. -/
theorem claim_C3 (sysQ : SysEvtQueue) (ipcc : Ipcc) (q : HeaplessEvtQueue)
    (hk : sysQ ≠ [])
    (hcap : q.items.length + sysQ.length ≤ EVT_QUEUE_CAPACITY) :
    Sys.evt_handler sysQ ipcc q
      = some ([],
          ipcc.c1_clear_flag_channel channels.cpu2.IPCC_SYSTEM_EVENT_CHANNEL,
          ⟨q.items ++ sysQ.map EvtBox.mk⟩) := by
  simp [Sys.evt_handler, drainSysQueue_eq sysQ q hcap]

/-- Witness for C3 at a concrete input: three linked nodes, empty ring. -/
theorem claim_C3_witness :
    ([1, 2, 3] : SysEvtQueue) ≠ [] ∧
    Sys.evt_handler [1, 2, 3] ipccA ⟨[]⟩
      = some ([],
          ipccA.c1_clear_flag_channel channels.cpu2.IPCC_SYSTEM_EVENT_CHANNEL,
          ⟨[EvtBox.mk 1, EvtBox.mk 2, EvtBox.mk 3]⟩) :=
  ⟨by decide, by simpa using claim_C3 [1, 2, 3] ipccA ⟨[]⟩ (by decide) (by decide)⟩

/-- Claim C4 counterexample: with every rx channel pending at once, the
`else if` chain services only the system-event channel; the pending BLE
(link-layer) event channel is NOT delegated in the same invocation, so the
handler does not delegate "each pending channel". -/
theorem claim_C4_counterexample :
    stAllRxPending.ipcc.is_rx_pending channels.cpu2.IPCC_BLE_EVENT_CHANNEL = true ∧
    (TlMbox.interrupt_ipcc_rx_handler stAllRxPending).2
      = [channels.cpu2.IPCC_SYSTEM_EVENT_CHANNEL] ∧
    channels.cpu2.IPCC_BLE_EVENT_CHANNEL
      ∉ (TlMbox.interrupt_ipcc_rx_handler stAllRxPending).2 := by
  decide

/-- Claim C4 (amended): the rx interrupt handler inspects the rx channels in
the fixed priority order system event, stack notification ack, link-layer
event, trace, stack CLI ack, and delegates exactly the highest-priority
pending channel (at most one per invocation) to its branch. -/
theorem claim_C4_amended (st : MboxState) :
    (TlMbox.interrupt_ipcc_rx_handler st).2
      = (RX_PRIORITY_ORDER.filter (fun c => st.ipcc.is_rx_pending c)).take 1 := by
  obtain ⟨⟨⟨f1, f2, f3, f4, f5, f6⟩, tf, ⟨e1, e2, e3, e4, e5, e6⟩, te⟩, d, sq, q, b⟩ := st
  cases f1 <;> cases f2 <;> cases f3 <;> cases f4 <;> cases f5 <;>
    cases e1 <;> cases e2 <;> cases e3 <;> cases e4 <;> cases e5 <;> rfl

/-- Claim C5 counterexample: `tl_init` writes (publishes) the reference
table BEFORE zeroing the sub-tables, so the claimed step order "zero every
sub-table and shared buffer, [then] wire ... into the reference table" does
not hold. -/
theorem claim_C5_counterexample :
    ¬ (tl_init_trace.indexOf InitStep.zeroSysTable
        < tl_init_trace.indexOf InitStep.publishRefTable) := by
  decide

/-- Claim C5 (amended): `tl_init` wires each sub-table's fixed address into
the reference table and publishes it at its well-known location FIRST, then
zeroes every sub-table and shared buffer, and only after all of that arms
any channel; the reference table is populated exactly once, before any
channel is armed. -/
theorem claim_C5_amended :
    tl_init_trace.count InitStep.publishRefTable = 1 ∧
    (∀ s ∈ tl_init_trace, s.isZeroStep = true →
      tl_init_trace.indexOf InitStep.publishRefTable < tl_init_trace.indexOf s) ∧
    (∀ s ∈ tl_init_trace, s.isZeroStep = true →
      tl_init_trace.indexOf s < tl_init_trace.indexOf InitStep.armSystemEventChannel) ∧
    tl_init_trace.count InitStep.armSystemEventChannel = 1 ∧
    tl_init_trace.indexOf InitStep.publishRefTable
      < tl_init_trace.indexOf InitStep.armSystemEventChannel := by
  decide

/-- Witness for C5 (amended) at a concrete zero step. -/
theorem claim_C5_witness :
    InitStep.isZeroStep InitStep.zeroEvtPool = true ∧
    tl_init_trace.indexOf InitStep.publishRefTable
      < tl_init_trace.indexOf InitStep.zeroEvtPool :=
  ⟨by decide, claim_C5_amended.2.1 InitStep.zeroEvtPool (by decide) (by decide)⟩

/-- Claim C6: `wireless_fw_info` is `none` exactly when the device-info
table's version word is zero, returns the stored table when it is nonzero,
and `dequeue_event` on an empty ring is `none` — absence, never an error. -/
theorem claim_C6 (st : MboxState) :
    (TlMbox.wireless_fw_info st = none ↔
      st.deviceInfoTable.wireless_fw_info_table.version = 0) ∧
    (st.deviceInfoTable.wireless_fw_info_table.version ≠ 0 →
      TlMbox.wireless_fw_info st
        = some st.deviceInfoTable.wireless_fw_info_table) ∧
    (st.evtQueue.items = [] → TlMbox.dequeue_event st = none) := by
  refine ⟨?_, ?_, ?_⟩
  · by_cases h : st.deviceInfoTable.wireless_fw_info_table.version = 0 <;>
      simp [TlMbox.wireless_fw_info, h]
  · intro h
    simp [TlMbox.wireless_fw_info, h]
  · intro h
    simp [TlMbox.dequeue_event, HeaplessEvtQueue.dequeue, h]

/-- Witness for C6: a booted device-info table (version 42) with an empty
ring. -/
theorem claim_C6_witness :
    stReady.deviceInfoTable.wireless_fw_info_table.version ≠ 0 ∧
    TlMbox.wireless_fw_info stReady
      = some stReady.deviceInfoTable.wireless_fw_info_table ∧
    TlMbox.dequeue_event stReady = none :=
  ⟨by decide, (claim_C6 stReady).2.1 (by decide), (claim_C6 stReady).2.2 rfl⟩

/-- Claim C7: the compile-time event-buffer pool size equals the event
queue depth times the packet-header + event-header + max-payload size
rounded up to the next multiple of 4. -/
theorem claim_C7 :
    POOL_SIZE = CFG_TLBLE_EVT_QUEUE_LENGTH
      * roundUpTo4 (TL_PACKET_HEADER_SIZE + TL_EVT_HEADER_SIZE
          + CFG_TLBLE_MOST_EVENT_PAYLOAD_SIZE) := by
  decide

/-- Claim C8: the channel-to-doorbell mapping equals the fixed protocol
table for both directions. -/
theorem claim_C8 :
    channels.cpu1.IPCC_BLE_CMD_CHANNEL = IpccChannel.Channel1 ∧
    channels.cpu1.IPCC_SYSTEM_CMD_RSP_CHANNEL = IpccChannel.Channel2 ∧
    channels.cpu1.IPCC_THREAD_OT_CMD_RSP_CHANNEL = IpccChannel.Channel3 ∧
    channels.cpu1.IPCC_MAC_802_15_4_CMD_RSP_CHANNEL = IpccChannel.Channel3 ∧
    channels.cpu1.IPCC_MM_RELEASE_BUFFER_CHANNEL = IpccChannel.Channel4 ∧
    channels.cpu1.IPCC_HCI_ACL_DATA_CHANNEL = IpccChannel.Channel6 ∧
    channels.cpu2.IPCC_BLE_EVENT_CHANNEL = IpccChannel.Channel1 ∧
    channels.cpu2.IPCC_SYSTEM_EVENT_CHANNEL = IpccChannel.Channel2 ∧
    channels.cpu2.IPCC_THREAD_NOTIFICATION_ACK_CHANNEL = IpccChannel.Channel3 ∧
    channels.cpu2.IPCC_MAC_802_15_4_NOTIFICATION_ACK_CHANNEL = IpccChannel.Channel3 ∧
    channels.cpu2.IPCC_TRACES_CHANNEL = IpccChannel.Channel4 ∧
    channels.cpu2.IPCC_THREAD_CLI_NOTIFICATION_ACK_CHANNEL = IpccChannel.Channel5 := by
  decide

/-- Claim C9: handling a tx interrupt never changes the application-facing
event ring, so the events observable through repeated `dequeue_event` are
the same before and after. -/
theorem claim_C9 (st : MboxState) :
    (TlMbox.interrupt_ipcc_tx_handler st).evtQueue = st.evtQueue ∧
    ∀ k, dequeueN k (TlMbox.interrupt_ipcc_tx_handler st).evtQueue
      = dequeueN k st.evtQueue := by
  have h : (TlMbox.interrupt_ipcc_tx_handler st).evtQueue = st.evtQueue := by
    unfold TlMbox.interrupt_ipcc_tx_handler Sys.cmd_evt_handler mm.free_buf_handler
    split
    · rfl
    · split
      · rfl
      · split
        · rfl
        · split <;> rfl
  exact ⟨h, fun k => by rw [h]⟩

/-- Claim C10: running the rx system-event handler on an empty intrusive
queue enqueues nothing, leaves the ring unchanged, and still clears the
system-event rx flag. -/
theorem claim_C10 (ipcc : Ipcc) (q : HeaplessEvtQueue) :
    Sys.evt_handler [] ipcc q
      = some ([],
          ipcc.c1_clear_flag_channel channels.cpu2.IPCC_SYSTEM_EVENT_CHANNEL,
          q) := rfl

end Stm32wbHal
